import Mathlib

/-!
Shallow embedding of the ephemeral_hub backend core
(src/ephemeral_backend/src/{handlers.rs, websocket.rs, shared_types.rs}).

Modelling choices, all taken from the source:

* Redis is modelled as an association list from string keys to a stored
  hub record together with its absolute expiry deadline (`expiresAt`,
  seconds).  `GET`, `TTL` and `SET key value EX ttl` are modelled relative
  to a single wall-clock instant `now : Nat` per handler invocation: a key
  whose deadline has passed behaves as absent (`GET` yields none, `TTL`
  yields -2), exactly Redis's lazy-expiry semantics as observed by clients.
  Records are stored as their parsed form rather than as JSON text; the
  handlers serialize with serde (`serde_json::to_string` / `from_str`),
  which round-trips, so the JSON step is dropped.
* S3 is modelled as an association list from object keys to byte lists.
  `put_object` always succeeds in the model; `get_object` fails exactly
  when the key is absent (modelling `S3GetError`).
* `f64` values (stroke coordinates and widths) are carried completely
  opaquely by the core - never computed with, only serialized - so they
  are represented by `Int` placeholders.
* Infrastructure failures that abort a handler before it does anything
  (Redis pool errors, multipart read errors) are not modelled; the error
  variants the claims mention are kept.
* In websocket.rs, the persistence branch of the receive task is written
  `if var space: Space = serde_json::from_str(&space_json).unwrap();`,
  which is not valid Rust (`handlers::Space` does not exist either; the
  record type in handlers.rs is `Hub`).  The evident intent of the line is
  a plain binding (`let mut space: Hub = ...`), and it is embedded as
  such; everything around it (the `space:` key prefix included) is
  embedded literally.
-/

/-- Mirrors `PathData` in shared_types.rs: one freehand whiteboard stroke.
The `f64` coordinates and stroke width are opaque to the core and are
represented by `Int`. -/
structure PathData where
  id : String
  points : List (Int × Int)
  color : String
  stroke_width : Int
deriving DecidableEq

/-- Mirrors `WsMessage` in shared_types.rs: the tagged union of live-edit
messages; the only variant is `PathCompleted(PathData)`. -/
inductive WsMessage where
  | PathCompleted (path : PathData)
deriving DecidableEq

/-- Mirrors `FileInfo` in handlers.rs: metadata for one uploaded file. -/
structure FileInfo where
  filename : String
  size : Nat
deriving DecidableEq

/-- Mirrors `Hub` in handlers.rs: the persisted record for one hub,
stored as JSON in Redis. `created_at` is seconds since the epoch. -/
structure Hub where
  id : String
  content : String
  created_at : Nat
  files : List FileInfo
  whiteboard : List PathData
deriving DecidableEq

/-- The `AppError` variants of handlers.rs that the modelled collaborators
can produce (infrastructure-only variants are omitted). -/
inductive AppError where
  | NotFound
  | S3GetError
  | UploadError
deriving DecidableEq

/-- One stored Redis value: the hub record plus the absolute time at which
the key expires (set by `SET ... EX ttl` as `now + ttl`). -/
structure StoreEntry where
  value : Hub
  expiresAt : Nat
deriving DecidableEq

/-- The Redis keyspace: an association list, newest binding first. -/
abbrev Store := List (String × StoreEntry)

/-- First binding for a key, if any. -/
def storeLookup : Store → String → Option StoreEntry
  | [], _ => none
  | (k, e) :: rest, k0 => if k = k0 then some e else storeLookup rest k0

/-- Redis `SET key value EX ttl` as a map update: the new binding shadows
any older one. -/
def storeSet (s : Store) (k : String) (e : StoreEntry) : Store :=
  (k, e) :: s

/-- Redis `GET key` at instant `now`: an expired key reads as absent. -/
def redisGet (s : Store) (now : Nat) (k : String) : Option Hub :=
  match storeLookup s k with
  | some e => if now < e.expiresAt then some e.value else none
  | none => none

/-- Redis `TTL key` at instant `now`: remaining seconds for a live key,
-2 for a missing (or already expired, hence evicted) key. -/
def redisTtl (s : Store) (now : Nat) (k : String) : Int :=
  match storeLookup s k with
  | some e => if now < e.expiresAt then (e.expiresAt : Int) - (now : Int) else -2
  | none => -2

/-- Redis `SET key value EX ttl` at instant `now`. -/
def redisSetEx (s : Store) (now : Nat) (k : String) (hub : Hub) (ttl : Nat) : Store :=
  storeSet s k ⟨hub, now + ttl⟩

/-- The S3 bucket: object key to byte list (bytes as `Nat`). -/
abbrev S3 := List (String × List Nat)

/-- S3 `get_object`: none models an `S3GetError`. -/
def s3Get : S3 → String → Option (List Nat)
  | [], _ => none
  | (k, v) :: rest, k0 => if k = k0 then some v else s3Get rest k0

/-- S3 `put_object` (always succeeds in the model). -/
def s3Put (s3 : S3) (k : String) (v : List Nat) : S3 :=
  (k, v) :: s3

/-- The Redis key for hub `id` used by every handler in handlers.rs:
`format!("hub:\x7b\x7d", id)`. -/
def hubKey (id : String) : String := "hub:" ++ id

/-- The Redis key used by the websocket receive task in websocket.rs:
`format!("space:\x7b\x7d", space_id)` - note the different prefix. -/
def spaceKey (space_id : String) : String := "space:" ++ space_id

/-- The initial text content handlers.rs gives a fresh hub. -/
def welcomeText : String := "Welcome to your ephemeral hub!"

/-- `Duration::hours(24).num_seconds()` in create_hub. -/
def ttl_seconds : Nat := 24 * 60 * 60

/-- Embeds `create_hub` (handlers.rs): build the fresh record and write it
with `SET hub:id json EX 86400`, unconditionally.  The generated nanoid
and the wall clock are parameters; returns the new store and the record
the response is built from. -/
def create_hub (s : Store) (id : String) (now : Nat) : Store × Hub :=
  let hub : Hub := ⟨id, welcomeText, now, [], []⟩
  (redisSetEx s now (hubKey id) hub ttl_seconds, hub)

/-- Embeds `get_hub` (handlers.rs): `GET hub:id`, 404 on nil. -/
def get_hub (s : Store) (now : Nat) (id : String) : Except AppError Hub :=
  match redisGet s now (hubKey id) with
  | some hub => Except.ok hub
  | none => Except.error AppError.NotFound

/-- Embeds `update_text_bin` (handlers.rs): read the record, replace
`content` with the request body, read the remaining TTL, and write back
with `SET ... EX ttl` only when `ttl > 0`; reply 200 whenever the record
was read, 404 otherwise.  Returns the reply and the store after the call. -/
def update_text_bin (s : Store) (now : Nat) (id : String) (body : String) :
    Except AppError Unit × Store :=
  match redisGet s now (hubKey id) with
  | some hub =>
    let hub2 : Hub := { hub with content := body }
    let ttl := redisTtl s now (hubKey id)
    if ttl > 0 then (Except.ok (), redisSetEx s now (hubKey id) hub2 ttl.toNat)
    else (Except.ok (), s)
  | none => (Except.error AppError.NotFound, s)

/-- One multipart field of an upload: the optional client filename and the
field bytes (`field.file_name()` and `field.bytes()`). -/
abbrev UploadPart := Option String × List Nat

/-- The per-field loop of `upload_file`: put the bytes at `id/filename`
and append the `FileInfo` to the in-memory record. -/
def uploadFields (id : String) : List UploadPart → Hub → S3 → Hub × S3
  | [], hub, s3 => (hub, s3)
  | (nameOpt, data) :: rest, hub, s3 =>
    let filename := nameOpt.getD "unknown_file"
    let s3' := s3Put s3 (id ++ "/" ++ filename) data
    let hub' : Hub := { hub with files := hub.files ++ [⟨filename, data.length⟩] }
    uploadFields id rest hub' s3'

/-- Embeds `upload_file` (handlers.rs): read the record (404 on nil), put
each field to S3 and append its metadata, then read the remaining TTL and
write the record back with `SET ... EX ttl` only when `ttl > 0`; reply 200.
Returns the reply, the store and the bucket after the call. -/
def upload_file (s : Store) (s3 : S3) (now : Nat) (id : String)
    (parts : List UploadPart) : Except AppError Unit × Store × S3 :=
  match redisGet s now (hubKey id) with
  | some hub =>
    let hs := uploadFields id parts hub s3
    let ttl := redisTtl s now (hubKey id)
    if ttl > 0 then (Except.ok (), redisSetEx s now (hubKey id) hs.1 ttl.toNat, hs.2)
    else (Except.ok (), s, hs.2)
  | none => (Except.error AppError.NotFound, s, s3)

/-- Byte content of a string (`content.as_bytes()`), modelled injectively
as the list of code points. -/
def strBytes (s : String) : List Nat :=
  s.data.map Char.toNat

/-- The per-file loop of `download_files`: fetch `id/filename` from S3 and
append a zip entry; the first failed fetch aborts the whole handler. -/
def fetchZipEntries (s3 : S3) (id : String) :
    List FileInfo → Except AppError (List (String × List Nat))
  | [] => Except.ok []
  | fi :: rest =>
    match s3Get s3 (id ++ "/" ++ fi.filename) with
    | some data =>
      match fetchZipEntries s3 id rest with
      | Except.ok es => Except.ok ((fi.filename, data) :: es)
      | Except.error e => Except.error e
    | none => Except.error AppError.S3GetError

/-- Embeds `download_files` (handlers.rs): read the record (404 on nil),
then build the zip archive - the text entry `ephemeral_text_bin.txt`
holding `content`, followed by one entry per `files[i]` fetched from S3;
any fetch failure aborts the handler with an error and no archive is
returned.  The archive is modelled as its ordered list of (name, bytes)
entries. -/
def download_files (s : Store) (s3 : S3) (now : Nat) (id : String) :
    Except AppError (List (String × List Nat)) :=
  match redisGet s now (hubKey id) with
  | some hub =>
    match fetchZipEntries s3 id hub.files with
    | Except.ok es => Except.ok (("ephemeral_text_bin.txt", strBytes hub.content) :: es)
    | Except.error e => Except.error e
  | none => Except.error AppError.NotFound

/-- One inbound websocket text frame, at the granularity the receive task
distinguishes: either its text parses as a `WsMessage` (serde's tolerant
decode succeeds) or it is an arbitrary other string. -/
inductive Frame where
  | msg (m : WsMessage)
  | unparsed (raw : String)
deriving DecidableEq

/-- `serde_json::from_str::<WsMessage>(&text)` as seen through `Frame`. -/
def parse_ws : Frame → Option WsMessage
  | Frame.msg m => some m
  | Frame.unparsed _ => none

/-- Embeds the body of the receive task of `handle_socket` (websocket.rs)
for one inbound text frame: the frame is pushed to the room's broadcast
channel first, unconditionally; then, if it parses as
`WsMessage::PathCompleted(path)`, the task reads the record at key
`space:space_id`, appends `path` to its whiteboard, reads the remaining
TTL and writes back with `SETEX` only when `ttl > 0`.  Returns the list
of frames published to the channel and the store after the frame. -/
def handle_socket_frame (s : Store) (now : Nat) (space_id : String) (frame : Frame) :
    List Frame × Store :=
  let broadcast := [frame]
  match parse_ws frame with
  | some (WsMessage.PathCompleted path) =>
    match redisGet s now (spaceKey space_id) with
    | some space =>
      let space2 : Hub := { space with whiteboard := space.whiteboard ++ [path] }
      let ttl := redisTtl s now (spaceKey space_id)
      if ttl > 0 then (broadcast, redisSetEx s now (spaceKey space_id) space2 ttl.toNat)
      else (broadcast, s)
    | none => (broadcast, s)
  | none => (broadcast, s)

/-! ### Helper lemmas about the store model -/

theorem storeLookup_set_self (s : Store) (k : String) (e : StoreEntry) :
    storeLookup (storeSet s k e) k = some e := by
  simp [storeSet, storeLookup]

theorem redisGet_live {s : Store} {now : Nat} {k : String} {e : StoreEntry}
    (hk : storeLookup s k = some e) (hlive : now < e.expiresAt) :
    redisGet s now k = some e.value := by
  simp [redisGet, hk, hlive]

theorem redisGet_dead {s : Store} {now : Nat} {k : String} {e : StoreEntry}
    (hk : storeLookup s k = some e) (hdead : e.expiresAt ≤ now) :
    redisGet s now k = none := by
  simp [redisGet, hk, Nat.not_lt.mpr hdead]

theorem redisGet_absent {s : Store} {now : Nat} {k : String}
    (hk : storeLookup s k = none) :
    redisGet s now k = none := by
  simp [redisGet, hk]

theorem redisTtl_live {s : Store} {now : Nat} {k : String} {e : StoreEntry}
    (hk : storeLookup s k = some e) (hlive : now < e.expiresAt) :
    redisTtl s now k = (e.expiresAt : Int) - (now : Int) := by
  simp [redisTtl, hk, hlive]

theorem redisSetEx_restore {s : Store} {now exp : Nat} (k : String) (hub : Hub)
    (hlive : now < exp) :
    redisSetEx s now k hub ((exp : Int) - (now : Int)).toNat = storeSet s k ⟨hub, exp⟩ := by
  have h : ((exp : Int) - (now : Int)).toNat = exp - now := by omega
  unfold redisSetEx
  rw [h, Nat.add_sub_cancel' (Nat.le_of_lt hlive)]

/-- The live read-modify-write path of `update_text_bin`: with the key live
at `now`, the reply is 200 and the record goes back under the same expiry
deadline with only `content` replaced. -/
theorem update_text_bin_live {s : Store} {now : Nat} {id : String} {e : StoreEntry}
    (hk : storeLookup s (hubKey id) = some e) (hlive : now < e.expiresAt)
    (body : String) :
    update_text_bin s now id body =
      (Except.ok (), storeSet s (hubKey id) ⟨{ e.value with content := body }, e.expiresAt⟩) := by
  have hpos : ((e.expiresAt : Int) - (now : Int)) > 0 := by omega
  unfold update_text_bin
  rw [redisGet_live hk hlive]
  simp only [redisTtl_live hk hlive, redisSetEx_restore _ _ hlive]
  rw [if_pos hpos]

/-- The live read-modify-write path of `upload_file`. -/
theorem upload_file_live {s : Store} {s3 : S3} {now : Nat} {id : String} {e : StoreEntry}
    (hk : storeLookup s (hubKey id) = some e) (hlive : now < e.expiresAt)
    (parts : List UploadPart) :
    upload_file s s3 now id parts =
      (Except.ok (),
       storeSet s (hubKey id) ⟨(uploadFields id parts e.value s3).1, e.expiresAt⟩,
       (uploadFields id parts e.value s3).2) := by
  have hpos : ((e.expiresAt : Int) - (now : Int)) > 0 := by omega
  unfold upload_file
  rw [redisGet_live hk hlive]
  simp only [redisTtl_live hk hlive, redisSetEx_restore _ _ hlive]
  rw [if_pos hpos]

/-- The live persistence path of the websocket receive task for a frame
that parses as `PathCompleted path`. -/
theorem handle_socket_frame_live {s : Store} {now : Nat} {sid : String} {e : StoreEntry}
    (hk : storeLookup s (spaceKey sid) = some e) (hlive : now < e.expiresAt)
    (path : PathData) :
    handle_socket_frame s now sid (Frame.msg (WsMessage.PathCompleted path)) =
      ([Frame.msg (WsMessage.PathCompleted path)],
       storeSet s (spaceKey sid)
         ⟨{ e.value with whiteboard := e.value.whiteboard ++ [path] }, e.expiresAt⟩) := by
  have hpos : ((e.expiresAt : Int) - (now : Int)) > 0 := by omega
  unfold handle_socket_frame parse_ws
  rw [redisGet_live hk hlive]
  simp only [redisTtl_live hk hlive, redisSetEx_restore _ _ hlive]
  rw [if_pos hpos]

/-! ### Concrete fixtures -/

/-- A concrete whiteboard stroke used as test input. -/
def examplePath : PathData := ⟨"p1", [(0, 0), (1, 1)], "#000000", 2⟩

/-- A concrete pre-existing hub record used as test input. -/
def oldHub : Hub := ⟨"h", "old content", 0, [⟨"a.txt", 4⟩], []⟩

/-- A store already holding `oldHub` under the key of hub "h", live until
time 1000. -/
def preStore : Store := [(hubKey "h", ⟨oldHub, 1000⟩)]

/-! ### Claims -/

/-- Claim C1 (code_bug evidence): the websocket persistence path misses the
hub record.  Concretely: create hub "h" at time 0 (stored under key
`hub:h`), then deliver a live frame that parses as
`PathCompleted examplePath` at time 10, with the hub record live (TTL
86390 remaining).  The receive task looks the record up under key
`space:h`, finds nothing, and leaves the store unchanged, so a subsequent
`get_hub "h"` still returns an empty whiteboard - not a list ending with
the delivered path, as the spec requires. -/
theorem C1_pathCompleted_not_visible_to_get_hub :
    (handle_socket_frame (create_hub [] "h" 0).1 10 "h"
        (Frame.msg (WsMessage.PathCompleted examplePath))).2 = (create_hub [] "h" 0).1 ∧
    get_hub (handle_socket_frame (create_hub [] "h" 0).1 10 "h"
        (Frame.msg (WsMessage.PathCompleted examplePath))).2 10 "h" =
      Except.ok ⟨"h", welcomeText, 0, [], []⟩ ∧
    (⟨"h", welcomeText, 0, [], []⟩ : Hub).whiteboard = [] :=
  ⟨rfl, rfl, rfl⟩

/-- Claim C3 counterexample: `create_hub` does not create the record with
empty text content - the content is the welcome message. -/
theorem C3_counterexample_content_not_empty :
    ¬ ((create_hub [] "h" 0).2.content = "") := by decide

/-- Claim C3 (amended): `create_hub` always creates the new hub record
with content equal to the (non-empty) welcome message
"Welcome to your ephemeral hub!" and a 24-hour (86400 s) TTL. -/
theorem C3_create_hub_welcome_content_and_24h_ttl (s : Store) (id : String) (now : Nat) :
    (create_hub s id now).2.content = welcomeText ∧
    welcomeText ≠ "" ∧
    storeLookup (create_hub s id now).1 (hubKey id) =
      some ⟨(create_hub s id now).2, now + ttl_seconds⟩ ∧
    ttl_seconds = 86400 := by
  refine ⟨rfl, by decide, ?_, rfl⟩
  simp [create_hub, redisSetEx, storeLookup_set_self]

/-- Claim C4 counterexample: with hub "h" already present (record `oldHub`,
live until 1000), `create_hub` at time 5 does not return Conflict and does
not leave the existing record unchanged - it unconditionally overwrites
the key with the fresh record. -/
theorem C4_counterexample_create_overwrites_existing :
    storeLookup preStore (hubKey "h") = some ⟨oldHub, 1000⟩ ∧
    storeLookup (create_hub preStore "h" 5).1 (hubKey "h") ≠ some ⟨oldHub, 1000⟩ := by
  decide

/-- Claim C4 (amended): `create_hub` writes unconditionally - for every
prior store state, present id included, the key afterwards holds the fresh
record with the full 24h TTL; no Conflict result exists in the code. -/
theorem C4_create_hub_writes_unconditionally (s : Store) (id : String) (now : Nat) :
    storeLookup (create_hub s id now).1 (hubKey id) =
      some ⟨⟨id, welcomeText, now, [], []⟩, now + ttl_seconds⟩ := by
  simp [create_hub, redisSetEx, storeLookup_set_self]

/-- Claim C8: every inbound text frame is pushed verbatim to the room's
broadcast channel, whether or not it parses as a `WsMessage`, and a frame
that does not parse as `PathCompleted` causes no store write. -/
theorem C8_broadcast_verbatim_unparsed_no_write (s : Store) (now : Nat)
    (sid : String) (f : Frame) :
    (handle_socket_frame s now sid f).1 = [f] ∧
    (parse_ws f = none → (handle_socket_frame s now sid f).2 = s) := by
  constructor
  · cases f with
    | unparsed raw => rfl
    | msg m =>
      cases m with
      | PathCompleted path =>
        cases hg : redisGet s now (spaceKey sid) with
        | none => simp [handle_socket_frame, parse_ws, hg]
        | some space =>
          simp only [handle_socket_frame, parse_ws, hg]
          split <;> rfl
  · intro hp
    cases f with
    | unparsed raw => rfl
    | msg m => simp [parse_ws] at hp

/-- Claim C8 witness: the theorem applied to the empty store and a frame
that does not parse as a `WsMessage`. -/
theorem C8_witness :
    (handle_socket_frame [] 0 "h" (Frame.unparsed "hello")).1 = [Frame.unparsed "hello"] ∧
    (handle_socket_frame [] 0 "h" (Frame.unparsed "hello")).2 = [] :=
  ⟨(C8_broadcast_verbatim_unparsed_no_write [] 0 "h" (Frame.unparsed "hello")).1,
   (C8_broadcast_verbatim_unparsed_no_write [] 0 "h" (Frame.unparsed "hello")).2 rfl⟩

/-- A store in which both the `hub:` and the `space:` key of hub "h" hold
a record whose deadline (time 50) has already passed. -/
def deadStore : Store := [(hubKey "h", ⟨oldHub, 50⟩), (spaceKey "h", ⟨oldHub, 50⟩)]

/-- A store in which both the `hub:` and the `space:` key of hub "h" hold
a live record (deadlines 1000 and 900). -/
def liveStore : Store := [(hubKey "h", ⟨oldHub, 1000⟩), (spaceKey "h", ⟨oldHub, 900⟩)]

/-- Claim C2: on a hub id whose record's TTL has elapsed at mutation time,
`update_text_bin` and `upload_file` reply NotFound and leave the store
exactly as it was, and the websocket whiteboard append leaves the store
exactly as it was (its persistence failure is swallowed, per the spec);
in particular no write resurrects the expired key. -/
theorem C2_expired_mutate_notfound_no_write (s : Store) (s3 : S3) (now : Nat)
    (id body : String) (parts : List UploadPart) (f : Frame) (e e' : StoreEntry)
    (hhub : storeLookup s (hubKey id) = some e) (hdead : e.expiresAt ≤ now)
    (hspace : storeLookup s (spaceKey id) = some e') (hdead' : e'.expiresAt ≤ now) :
    update_text_bin s now id body = (Except.error AppError.NotFound, s) ∧
    upload_file s s3 now id parts = (Except.error AppError.NotFound, s, s3) ∧
    (handle_socket_frame s now id f).2 = s := by
  refine ⟨?_, ?_, ?_⟩
  · unfold update_text_bin
    rw [redisGet_dead hhub hdead]
  · unfold upload_file
    rw [redisGet_dead hhub hdead]
  · cases f with
    | unparsed raw => rfl
    | msg m =>
      cases m with
      | PathCompleted path =>
        simp [handle_socket_frame, parse_ws, redisGet_dead hspace hdead']

/-- Claim C2 witness: the theorem applied to a store whose "h" records
expired at time 50, mutated at time 100. -/
theorem C2_witness :
    update_text_bin deadStore 100 "h" "x" = (Except.error AppError.NotFound, deadStore) ∧
    upload_file deadStore [] 100 "h" [] = (Except.error AppError.NotFound, deadStore, []) ∧
    (handle_socket_frame deadStore 100 "h"
        (Frame.msg (WsMessage.PathCompleted examplePath))).2 = deadStore :=
  C2_expired_mutate_notfound_no_write deadStore [] 100 "h" "x" []
    (Frame.msg (WsMessage.PathCompleted examplePath)) ⟨oldHub, 50⟩ ⟨oldHub, 50⟩
    (by decide) (by decide) (by decide) (by decide)

/-- Claim C5: every successful mutation - text update, file upload,
whiteboard append - writes the record back under the same absolute expiry
deadline that was read, so the remaining TTL is carried forward unchanged
(hence never reset to the full 24h, and the remaining TTL after the call
is less than or equal to the one before). -/
theorem C5_mutations_preserve_ttl (s : Store) (s3 : S3) (now : Nat) (id body : String)
    (parts : List UploadPart) (path : PathData) (e e' : StoreEntry)
    (hhub : storeLookup s (hubKey id) = some e) (hlive : now < e.expiresAt)
    (hspace : storeLookup s (spaceKey id) = some e') (hlive' : now < e'.expiresAt) :
    (∃ h2 : Hub, storeLookup (update_text_bin s now id body).2 (hubKey id) =
        some ⟨h2, e.expiresAt⟩) ∧
    (∃ h3 : Hub, storeLookup (upload_file s s3 now id parts).2.1 (hubKey id) =
        some ⟨h3, e.expiresAt⟩) ∧
    (∃ h4 : Hub, storeLookup
        (handle_socket_frame s now id (Frame.msg (WsMessage.PathCompleted path))).2
        (spaceKey id) = some ⟨h4, e'.expiresAt⟩) := by
  refine ⟨?_, ?_, ?_⟩
  · rw [update_text_bin_live hhub hlive]
    exact ⟨_, storeLookup_set_self _ _ _⟩
  · rw [upload_file_live hhub hlive]
    exact ⟨_, storeLookup_set_self _ _ _⟩
  · rw [handle_socket_frame_live hspace hlive' path]
    exact ⟨_, storeLookup_set_self _ _ _⟩

/-- Claim C5 witness: the theorem applied to a store whose "h" records are
live at time 100 with deadlines 1000 and 900. -/
theorem C5_witness :
    (∃ h2 : Hub, storeLookup (update_text_bin liveStore 100 "h" "x").2 (hubKey "h") =
        some ⟨h2, 1000⟩) ∧
    (∃ h3 : Hub, storeLookup (upload_file liveStore [] 100 "h" []).2.1 (hubKey "h") =
        some ⟨h3, 1000⟩) ∧
    (∃ h4 : Hub, storeLookup
        (handle_socket_frame liveStore 100 "h"
          (Frame.msg (WsMessage.PathCompleted examplePath))).2 (spaceKey "h") =
        some ⟨h4, 900⟩) :=
  C5_mutations_preserve_ttl liveStore [] 100 "h" "x" [] examplePath
    ⟨oldHub, 1000⟩ ⟨oldHub, 900⟩ (by decide) (by decide) (by decide) (by decide)

/-- Claim C6: with the hub record present and live, `update_text_bin` then
`get_hub` returns the record with `content` equal to the new text; with
the record absent, `update_text_bin` replies NotFound. -/
theorem C6_set_text_then_read (s : Store) (now : Nat) (id body : String) :
    (∀ e : StoreEntry, storeLookup s (hubKey id) = some e → now < e.expiresAt →
      get_hub (update_text_bin s now id body).2 now id =
        Except.ok { e.value with content := body }) ∧
    (storeLookup s (hubKey id) = none →
      update_text_bin s now id body = (Except.error AppError.NotFound, s)) := by
  constructor
  · intro e hk hlive
    rw [update_text_bin_live hk hlive]
    unfold get_hub
    dsimp only
    have hk2 : storeLookup
        (storeSet s (hubKey id) ⟨{ e.value with content := body }, e.expiresAt⟩)
        (hubKey id) = some ⟨{ e.value with content := body }, e.expiresAt⟩ :=
      storeLookup_set_self _ _ _
    rw [redisGet_live hk2 hlive]
  · intro hk
    unfold update_text_bin
    rw [redisGet_absent hk]

/-- Claim C6 witness: the theorem applied once to a store holding hub "h"
live, once to the empty store. -/
theorem C6_witness :
    get_hub (update_text_bin preStore 5 "h" "hello").2 5 "h" =
      Except.ok { oldHub with content := "hello" } ∧
    update_text_bin [] 5 "h" "hello" = (Except.error AppError.NotFound, []) :=
  ⟨(C6_set_text_then_read preStore 5 "h" "hello").1 ⟨oldHub, 1000⟩ (by decide) (by decide),
   (C6_set_text_then_read [] 5 "h" "hello").2 (by decide)⟩

/-! ### Bundle lemmas -/

theorem fetchZipEntries_all_some (s3 : S3) (id : String) :
    ∀ l : List FileInfo, (∀ fi ∈ l, (s3Get s3 (id ++ "/" ++ fi.filename)).isSome) →
      fetchZipEntries s3 id l =
        Except.ok (l.map fun fi => (fi.filename, (s3Get s3 (id ++ "/" ++ fi.filename)).getD []))
  | [], _ => rfl
  | fi :: rest, h => by
    have hfi := h fi (List.mem_cons_self fi rest)
    have ih := fetchZipEntries_all_some s3 id rest (fun x hx => h x (List.mem_cons_of_mem _ hx))
    unfold fetchZipEntries
    cases hs : s3Get s3 (id ++ "/" ++ fi.filename) with
    | none => rw [hs] at hfi; simp at hfi
    | some data => rw [ih]; simp [hs]

theorem fetchZipEntries_fail (s3 : S3) (id : String) :
    ∀ l : List FileInfo, (∃ fi ∈ l, s3Get s3 (id ++ "/" ++ fi.filename) = none) →
      fetchZipEntries s3 id l = Except.error AppError.S3GetError
  | [], h => by simp at h
  | fi :: rest, h => by
    unfold fetchZipEntries
    cases hs : s3Get s3 (id ++ "/" ++ fi.filename) with
    | none => rfl
    | some data =>
      have hrest : ∃ x ∈ rest, s3Get s3 (id ++ "/" ++ x.filename) = none := by
        rcases h with ⟨x, hx, hnone⟩
        rcases List.mem_cons.mp hx with h1 | h2
        · subst h1; rw [hs] at hnone; cases hnone
        · exact ⟨x, h2, hnone⟩
      rw [fetchZipEntries_fail s3 id rest hrest]

/-- Claim C7: on a present, live hub record, `download_files` returns one
archive whose first entry is the text entry `ephemeral_text_bin.txt`
holding the record's content, followed by exactly one entry per
`files[i]` with the bytes fetched from S3 for that filename,
byte-identical; and if fetching any single file fails, the whole handler
fails with the S3 read error and no archive is returned. -/
theorem C7_download_bundle (s : Store) (s3 : S3) (now : Nat) (id : String)
    (e : StoreEntry)
    (hk : storeLookup s (hubKey id) = some e) (hlive : now < e.expiresAt) :
    ((∀ fi ∈ e.value.files, (s3Get s3 (id ++ "/" ++ fi.filename)).isSome) →
      download_files s s3 now id =
        Except.ok (("ephemeral_text_bin.txt", strBytes e.value.content) ::
          e.value.files.map fun fi =>
            (fi.filename, (s3Get s3 (id ++ "/" ++ fi.filename)).getD []))) ∧
    ((∃ fi ∈ e.value.files, s3Get s3 (id ++ "/" ++ fi.filename) = none) →
      download_files s s3 now id = Except.error AppError.S3GetError) := by
  constructor
  · intro hall
    unfold download_files
    rw [redisGet_live hk hlive]
    dsimp only
    rw [fetchZipEntries_all_some s3 id e.value.files hall]
  · intro hex
    unfold download_files
    rw [redisGet_live hk hlive]
    dsimp only
    rw [fetchZipEntries_fail s3 id e.value.files hex]

/-- A bucket holding the bytes of `a.txt` for hub "h". -/
def s3WithFile : S3 := [("h/a.txt", [1, 2, 3, 4])]

/-- Claim C7 witness: the theorem applied to hub "h" with one file, once
with the object present in S3 and once with an empty bucket. -/
theorem C7_witness :
    download_files preStore s3WithFile 5 "h" =
      Except.ok [("ephemeral_text_bin.txt", strBytes oldHub.content), ("a.txt", [1, 2, 3, 4])] ∧
    download_files preStore [] 5 "h" = Except.error AppError.S3GetError :=
  ⟨(C7_download_bundle preStore s3WithFile 5 "h" ⟨oldHub, 1000⟩
      (by decide) (by decide)).1 (by decide),
   (C7_download_bundle preStore [] 5 "h" ⟨oldHub, 1000⟩
      (by decide) (by decide)).2 (by decide)⟩

/-! ### Upload-loop lemmas -/

/-- The file metadata `upload_file` appends for a list of multipart
fields, in field order. -/
def partsInfos : List UploadPart → List FileInfo
  | [] => []
  | (nameOpt, data) :: rest => ⟨nameOpt.getD "unknown_file", data.length⟩ :: partsInfos rest

theorem uploadFields_files (id : String) :
    ∀ (parts : List UploadPart) (hub : Hub) (s3 : S3),
      (uploadFields id parts hub s3).1.files = hub.files ++ partsInfos parts
  | [], hub, s3 => by simp [uploadFields, partsInfos]
  | (n, d) :: rest, hub, s3 => by
    simp only [uploadFields, partsInfos, uploadFields_files id rest]
    simp

theorem uploadFields_whiteboard (id : String) :
    ∀ (parts : List UploadPart) (hub : Hub) (s3 : S3),
      (uploadFields id parts hub s3).1.whiteboard = hub.whiteboard
  | [], _, _ => rfl
  | (_n, _d) :: rest, _hub, _s3 => uploadFields_whiteboard id rest _ _

/-- Claim C9 counterexample: with hub "h" present and holding one file
entry, `create_hub` on the colliding id "h" replaces the stored record
with one whose `files` list is empty - the previous entries are not a
prefix of the new list, so createHub does not preserve existing entries. -/
theorem C9_counterexample_create_discards_lists :
    ((storeLookup preStore (hubKey "h")).map fun e => e.value.files) =
      some [⟨"a.txt", 4⟩] ∧
    ((storeLookup (create_hub preStore "h" 5).1 (hubKey "h")).map fun e => e.value.files) =
      some [] ∧
    ¬ (∃ t : List FileInfo, ([] : List FileInfo) = [⟨"a.txt", 4⟩] ++ t) := by
  refine ⟨by decide, by decide, ?_⟩
  rintro ⟨t, ht⟩
  simp at ht

/-- Claim C9 (amended): the text update, the file upload and the
whiteboard append each write back a record whose `files` and `whiteboard`
lists extend the previous ones - the previous entries are a prefix, in
order; `create_hub` guarantees this only for an id that is absent from
the store (on an id collision it overwrites the record, discarding both
lists). -/
theorem C9_lists_append_only (s : Store) (s3 : S3) (now : Nat) (id body : String)
    (parts : List UploadPart) (path : PathData) (e e' : StoreEntry)
    (hhub : storeLookup s (hubKey id) = some e) (hlive : now < e.expiresAt)
    (hspace : storeLookup s (spaceKey id) = some e') (hlive' : now < e'.expiresAt) :
    (∃ e2 : StoreEntry, storeLookup (update_text_bin s now id body).2 (hubKey id) = some e2 ∧
      e2.value.files = e.value.files ∧ e2.value.whiteboard = e.value.whiteboard) ∧
    (∃ e3 : StoreEntry, storeLookup (upload_file s s3 now id parts).2.1 (hubKey id) = some e3 ∧
      e3.value.files = e.value.files ++ partsInfos parts ∧
      e3.value.whiteboard = e.value.whiteboard) ∧
    (∃ e4 : StoreEntry, storeLookup
        (handle_socket_frame s now id (Frame.msg (WsMessage.PathCompleted path))).2
        (spaceKey id) = some e4 ∧
      e4.value.files = e'.value.files ∧
      e4.value.whiteboard = e'.value.whiteboard ++ [path]) := by
  refine ⟨?_, ?_, ?_⟩
  · rw [update_text_bin_live hhub hlive]
    exact ⟨_, storeLookup_set_self _ _ _, rfl, rfl⟩
  · rw [upload_file_live hhub hlive]
    exact ⟨_, storeLookup_set_self _ _ _,
      uploadFields_files id parts e.value s3, uploadFields_whiteboard id parts e.value s3⟩
  · rw [handle_socket_frame_live hspace hlive' path]
    exact ⟨_, storeLookup_set_self _ _ _, rfl, rfl⟩

/-- Claim C9 witness: the amended theorem applied to a store whose "h"
records are live at time 100, with one uploaded field. -/
theorem C9_witness :
    (∃ e2 : StoreEntry, storeLookup (update_text_bin liveStore 100 "h" "x").2 (hubKey "h") =
        some e2 ∧ e2.value.files = oldHub.files ∧ e2.value.whiteboard = oldHub.whiteboard) ∧
    (∃ e3 : StoreEntry, storeLookup
        (upload_file liveStore [] 100 "h" [(some "b.txt", [9])]).2.1 (hubKey "h") = some e3 ∧
      e3.value.files = oldHub.files ++ partsInfos [(some "b.txt", [9])] ∧
      e3.value.whiteboard = oldHub.whiteboard) ∧
    (∃ e4 : StoreEntry, storeLookup
        (handle_socket_frame liveStore 100 "h"
          (Frame.msg (WsMessage.PathCompleted examplePath))).2 (spaceKey "h") = some e4 ∧
      e4.value.files = oldHub.files ∧
      e4.value.whiteboard = oldHub.whiteboard ++ [examplePath]) :=
  C9_lists_append_only liveStore [] 100 "h" "x" [(some "b.txt", [9])] examplePath
    ⟨oldHub, 1000⟩ ⟨oldHub, 900⟩ (by decide) (by decide) (by decide) (by decide)

/-- Claim C10: with the hub record present and live, `update_text_bin`
writes back exactly the record it read with only `content` replaced - the
`id`, `created_at`, `files` and `whiteboard` fields of the stored record
are unchanged (and so is the expiry deadline). -/
theorem C10_set_text_touches_only_content (s : Store) (now : Nat) (id body : String)
    (e : StoreEntry)
    (hk : storeLookup s (hubKey id) = some e) (hlive : now < e.expiresAt) :
    storeLookup (update_text_bin s now id body).2 (hubKey id) =
      some ⟨{ e.value with content := body }, e.expiresAt⟩ ∧
    ({ e.value with content := body } : Hub).id = e.value.id ∧
    ({ e.value with content := body } : Hub).created_at = e.value.created_at ∧
    ({ e.value with content := body } : Hub).files = e.value.files ∧
    ({ e.value with content := body } : Hub).whiteboard = e.value.whiteboard := by
  refine ⟨?_, rfl, rfl, rfl, rfl⟩
  rw [update_text_bin_live hk hlive]
  exact storeLookup_set_self _ _ _

/-- Claim C10 witness: the theorem applied to a store holding hub "h"
live at time 5. -/
theorem C10_witness :
    storeLookup (update_text_bin preStore 5 "h" "hello").2 (hubKey "h") =
      some ⟨{ oldHub with content := "hello" }, 1000⟩ ∧
    ({ oldHub with content := "hello" } : Hub).id = oldHub.id ∧
    ({ oldHub with content := "hello" } : Hub).created_at = oldHub.created_at ∧
    ({ oldHub with content := "hello" } : Hub).files = oldHub.files ∧
    ({ oldHub with content := "hello" } : Hub).whiteboard = oldHub.whiteboard :=
  C10_set_text_touches_only_content preStore 5 "h" "hello" ⟨oldHub, 1000⟩
    (by decide) (by decide)
